import Mathlib

/-!
# Verification of the duplication-detection and failure-classification core

Shallow embedding of `agent-service/agent_service/test_analysis.py`:
the `TestFailureAnalyzer`, `DuplicationChecker` and `TestFlowOrchestrator`
classes.  Python strings are Lean `String`s, Python `float` percentages are
modelled as exact rationals (`ℚ`), Python dicts keyed by strings with
insertion order are modelled as association lists built in insertion order,
and Python sets are modelled as lists without duplicates.  A file handed to
a checker is a pair `(path, Option content)`; `none` models a file whose
`open`/`read` raises (the `except` branch in the source).
-/

/-- Python's substring test `needle in hay` (`str.__contains__`). -/
def containsSub (hay needle : String) : Bool :=
  needle.data.IsInfix hay.data |> decide

/-- Python's `str.lower()` (restricted to ASCII case mapping, which is all
the analysed artifacts use). -/
def pyLower (s : String) : String :=
  ⟨s.data.map Char.toLower⟩

/-- The whitespace characters stripped by Python's `str.strip()`
(ASCII portion). -/
def pySpace (c : Char) : Bool :=
  c = ' ' || c = '\t' || c = '\n' || c = '\r' || c = '\x0b' || c = '\x0c'

/-- Python's `str.strip()`: drop leading and trailing whitespace. -/
def pyStrip (s : String) : String :=
  ⟨((s.data.dropWhile pySpace).reverse.dropWhile pySpace).reverse⟩

/-- One entry of `TestFailureAnalyzer.failure_patterns`: the dict key is the
error-type name (also the marker searched for in the log), the value carries
the cause text and the fix list. -/
structure FailurePattern where
  error_type : String
  cause : String
  fixes : List String
deriving DecidableEq

/-- `TestFailureAnalyzer.failure_patterns`, in the dict's insertion order
(Python dicts iterate in insertion order). -/
def failure_patterns : List FailurePattern :=
  [ { error_type := "NoSuchElementException"
    , cause := "Locator not found on page"
    , fixes :=
        [ "Verify locator selector is correct"
        , "Check if element exists in current page context"
        , "Update locator in page object"
        , "Add wait condition for element to appear"
        , "Verify page has loaded completely" ] }
  , { error_type := "StaleElementReferenceException"
    , cause := "Element went stale (DOM refreshed)"
    , fixes :=
        [ "Add wait for element after action"
        , "Re-find element before interaction"
        , "Use explicit waits instead of implicit"
        , "Add try-catch with re-find logic" ] }
  , { error_type := "TimeoutException"
    , cause := "Action took too long"
    , fixes :=
        [ "Increase timeout value"
        , "Wait for element visibility instead of presence"
        , "Check if element is clickable"
        , "Verify page load is complete"
        , "Check for loading spinners" ] }
  , { error_type := "AssertionError"
    , cause := "Expected value doesn't match actual"
    , fixes :=
        [ "Update expected value in test"
        , "Check if element has correct content"
        , "Verify test data is correct"
        , "Add print statements to debug values"
        , "Check for dynamic content changes" ] }
  , { error_type := "ElementNotInteractableException"
    , cause := "Element exists but cannot be clicked/typed"
    , fixes :=
        [ "Scroll element into view"
        , "Wait for element to be clickable"
        , "Check if element is covered by another"
        , "Add explicit wait for element readiness"
        , "Use JavaScript executor to click if needed" ] }
  , { error_type := "InvalidElementStateException"
    , cause := "Element is disabled or read-only"
    , fixes :=
        [ "Check if element is enabled"
        , "Wait for element to be enabled"
        , "Verify element is not disabled"
        , "Check form validation state" ] } ]

/-- The fixed `recommended_actions` script for CRITICAL severity. -/
def critical_actions : List String :=
  [ "1. Verify locators are correct and up-to-date"
  , "2. Check if page structure has changed"
  , "3. Update page object with new locators"
  , "4. Re-run test to verify fix" ]

/-- The fixed `recommended_actions` script for HIGH severity. -/
def high_actions : List String :=
  [ "1. Increase timeout values"
  , "2. Add explicit waits"
  , "3. Check page load completeness"
  , "4. Monitor for external delays" ]

/-- The result dict of `TestFailureAnalyzer.analyze_failure`. -/
structure FailureAnalysis where
  error_type : Option String
  cause : Option String
  fixes : List String
  severity : String
  recommended_actions : List String
deriving DecidableEq

/-- `TestFailureAnalyzer.analyze_failure`: first signature whose name occurs
in the message wins (the `for`/`break` loop over `failure_patterns`);
severity is a separate ordered substring check on the raw message;
`recommended_actions` is keyed only by the computed severity. -/
def analyze_failure (error_message : String) : FailureAnalysis :=
  let matched := failure_patterns.find? fun p => containsSub error_message p.error_type
  let sev : String :=
    if containsSub error_message "NoSuchElementException" then "CRITICAL"
    else if containsSub error_message "TimeoutException" then "HIGH"
    else if containsSub error_message "AssertionError" then "MEDIUM"
    else "LOW"
  { error_type := matched.map fun p => p.error_type
  , cause := matched.map fun p => p.cause
  , fixes := (matched.map fun p => p.fixes).getD []
  , severity := sev
  , recommended_actions :=
      if sev = "CRITICAL" then critical_actions
      else if sev = "HIGH" then high_actions
      else [] }

example :
    (analyze_failure "org.openqa.selenium.NoSuchElementException: no such element").severity
      = "CRITICAL" := by decide

example : (analyze_failure "some random unrelated text").error_type = none := by decide

/-! ## Regex extraction

`re.findall` with the two concrete patterns of the source is implemented as a
deterministic left-to-right scanner: at each position the pattern either
matches (the captures are emitted and scanning resumes after the match) or
the scanner advances one character.  Both patterns are deterministic: their
greedy pieces (`\w+`, `[^;]+`, `[^"]+`) are each followed by a character the
piece itself excludes, so no backtracking into them can succeed. -/

/-- Python's `\w` (ASCII portion): letters, digits, underscore. -/
def isWordChar (c : Char) : Bool :=
  c.isAlphanum || c = '_'

/-- `pre` is a prefix of `cs` (character lists). -/
def isPfx : List Char → List Char → Bool
  | [], _ => true
  | _ :: _, [] => false
  | a :: as, b :: bs => a == b && isPfx as bs

/-- Attempt to match `public static final By (\w+) = By\.([^;]+);` at the
start of `cs`; on success return the two captures and the rest of the
input after the match. -/
def matchLocatorAt (cs : List Char) : Option ((String × String) × List Char) :=
  let p1 := "public static final By ".data
  if isPfx p1 cs then
    let r1 := cs.drop p1.length
    let name := r1.takeWhile isWordChar
    if name.isEmpty then none
    else
      let r2 := r1.drop name.length
      let p2 := " = By.".data
      if isPfx p2 r2 then
        let r3 := r2.drop p2.length
        let val := r3.takeWhile fun c => c != ';'
        if val.isEmpty then none
        else
          match r3.drop val.length with
          | ';' :: rest => some ((⟨name⟩, ⟨val⟩), rest)
          | _ => none
      else none
  else none

/-- Attempt to match `@(When|Then|Given)\("([^"]+)"\)` at the start of `cs`
(alternatives tried in the regex's order); on success return the two
captures and the rest of the input after the match. -/
def matchStepAt (cs : List Char) : Option ((String × String) × List Char) :=
  match cs with
  | '@' :: rest =>
    let tryKeyword : String → Option ((String × String) × List Char) := fun kw =>
      if isPfx kw.data rest then
        match rest.drop kw.length with
        | '(' :: '\"' :: r2 =>
          let pat := r2.takeWhile fun c => c != '\"'
          if pat.isEmpty then none
          else
            match r2.drop pat.length with
            | '\"' :: ')' :: rem => some ((kw, ⟨pat⟩), rem)
            | _ => none
        | _ => none
      else none
    match tryKeyword "When" with
    | some r => some r
    | none =>
      match tryKeyword "Then" with
      | some r => some r
      | none => tryKeyword "Given"
  | _ => none

/-- Left-to-right non-overlapping scan (the body of `re.findall`); fuel is
the input length, which bounds the number of scan steps because every step
consumes at least one character. -/
def scanAux (matchAt : List Char → Option ((String × String) × List Char)) :
    Nat → List Char → List (String × String)
  | 0, _ => []
  | _ + 1, [] => []
  | fuel + 1, c :: rest =>
    match matchAt (c :: rest) with
    | some (caps, rem) => caps :: scanAux matchAt fuel rem
    | none => scanAux matchAt fuel rest

/-- `re.findall(r'public static final By (\w+) = By\.([^;]+);', content)`:
list of `(locator_name, locator_value)` captures. -/
def extract_locators (content : String) : List (String × String) :=
  scanAux matchLocatorAt content.data.length content.data

/-- `re.findall(r'@(When|Then|Given)\("([^"]+)"\)', content)`: list of
`(pattern_type, pattern_text)` captures. -/
def extract_steps (content : String) : List (String × String) :=
  scanAux matchStepAt content.data.length content.data

example :
    extract_locators "public static final By LOGIN = By.id(\"user\"); junk" =
      [("LOGIN", "id(\"user\")")] := by decide

example :
    extract_steps "@When(\"I log in\") @Given(\"a user\")" =
      [("When", "I log in"), ("Given", "a user")] := by decide

/-! ## DuplicationChecker

The per-key occurrence dicts (`step_patterns`, `locator_map`) are modelled
as association lists in key insertion order; appending to a key's list and
adding a fresh key at the end reproduces the dict's iteration order.  A
Python `set` of file paths is a list grown only with unseen elements. -/

/-- `d.setdefault(key, []).append(occ)` on an insertion-ordered dict. -/
def insertOcc {α : Type} (m : List (String × List α)) (key : String) (occ : α) :
    List (String × List α) :=
  match m with
  | [] => [(key, [occ])]
  | (k, os) :: rest =>
    if k = key then (k, os ++ [occ]) :: rest else (k, os) :: insertOcc rest key occ

/-- The list of occurrences stored under `key` (empty if absent). -/
def getOcc {α : Type} (m : List (String × List α)) (key : String) : List α :=
  match m.find? fun e => e.1 == key with
  | some e => e.2
  | none => []

/-- `s.add(x)` on a Python set modelled as a duplicate-free list. -/
def addFile (s : List String) (f : String) : List String :=
  if f ∈ s then s else s ++ [f]

/-- One element of a `step_patterns` bucket:
`{"file": ..., "pattern": ..., "type": ...}`. -/
structure StepOcc where
  file : String
  pattern : String
  type : String
deriving DecidableEq

/-- One element of a `locator_map` bucket:
`{"file": ..., "name": ..., "value": ...}`. -/
structure LocOcc where
  file : String
  name : String
  value : String
deriving DecidableEq

/-- One entry of `report["duplicate_steps"]`. -/
structure DupStep where
  pattern : String
  count : Nat
  files : List String
deriving DecidableEq

/-- One entry of `report["duplicate_locators"]`. -/
structure DupLoc where
  value : String
  count : Nat
  locations : List String
deriving DecidableEq

/-- The report dict of `check_step_duplication`. -/
structure StepReport where
  total_steps : Nat
  duplicate_steps : List DupStep
  files_affected : List String
  duplication_percentage : ℚ
deriving DecidableEq

/-- The report dict of `check_page_object_duplication`. -/
structure LocReport where
  total_locators : Nat
  duplicate_locators : List DupLoc
  pages_affected : List String
  duplication_percentage : ℚ
deriving DecidableEq

/-- A file as seen by a checker: path plus `some content`, or `none` when
reading the file raises (caught and skipped by the source's `except`). -/
abbrev PyFile := String × Option String

/-- Scanner state while iterating files: `(total, occurrence dict,
affected-file set)`. -/
abbrev ScanState (α : Type) := Nat × List (String × List α) × List String

/-- Body of the inner loop of `check_step_duplication`: count the step,
bucket it under the lowercased pattern text, record the file. -/
def stepItem (st : ScanState StepOcc) (it : String × String × String) :
    ScanState StepOcc :=
  (st.1 + 1,
   insertOcc st.2.1 (pyLower it.2.2) ⟨it.1, it.2.2, it.2.1⟩,
   addFile st.2.2 it.1)

/-- Body of the outer loop of `check_step_duplication`: a file that fails to
read leaves the state unchanged (the `except` branch only prints). -/
def stepFile (st : ScanState StepOcc) (f : PyFile) : ScanState StepOcc :=
  match f.2 with
  | none => st
  | some content =>
    ((extract_steps content).map fun pt => (f.1, pt.1, pt.2)).foldl stepItem st

/-- `DuplicationChecker.check_step_duplication`. -/
def check_step_duplication (step_files : List PyFile) : StepReport :=
  let st := step_files.foldl stepFile (0, [], [])
  let dups := (st.2.1.filter fun e => decide (1 < e.2.length)).map fun e =>
    { pattern := e.1, count := e.2.length, files := e.2.map fun o => o.file }
  { total_steps := st.1
  , duplicate_steps := dups
  , files_affected := st.2.2
  , duplication_percentage :=
      if 0 < st.1 then ((dups.length : ℚ) / (st.1 : ℚ)) * 100 else 0 }

/-- Body of the inner loop of `check_page_object_duplication`: count the
locator, bucket it under the stripped lowercased value, record the file. -/
def locItem (st : ScanState LocOcc) (it : String × String × String) :
    ScanState LocOcc :=
  (st.1 + 1,
   insertOcc st.2.1 (pyLower (pyStrip it.2.2)) ⟨it.1, it.2.1, it.2.2⟩,
   addFile st.2.2 it.1)

/-- Body of the outer loop of `check_page_object_duplication`. -/
def locFile (st : ScanState LocOcc) (f : PyFile) : ScanState LocOcc :=
  match f.2 with
  | none => st
  | some content =>
    ((extract_locators content).map fun nv => (f.1, nv.1, nv.2)).foldl locItem st

/-- `DuplicationChecker.check_page_object_duplication`. -/
def check_page_object_duplication (page_files : List PyFile) : LocReport :=
  let st := page_files.foldl locFile (0, [], [])
  let dups := (st.2.1.filter fun e => decide (1 < e.2.length)).map fun e =>
    { value := e.1, count := e.2.length
    , locations := e.2.map fun o => o.file ++ "::" ++ o.name }
  { total_locators := st.1
  , duplicate_locators := dups
  , pages_affected := st.2.2
  , duplication_percentage :=
      if 0 < st.1 then ((dups.length : ℚ) / (st.1 : ℚ)) * 100 else 0 }

/-! ## TestFlowOrchestrator -/

/-- The `pre_check_report` dict of
`TestFlowOrchestrator.check_before_execution`.  `locator_integrity` is
initialised to `None` and never assigned, hence `Option Unit`. -/
structure PreCheckReport where
  timestamp : String
  duplication_check : Option LocReport
  locator_integrity : Option Unit
  step_integrity : Option StepReport
  ready_to_execute : Bool
  issues : List String
deriving DecidableEq

/-- `TestFlowOrchestrator.check_before_execution`, with the discovered page
and step files (the external file-discovery collaborator's output) and the
timestamp passed explicitly.  Python's `if page_files:` / `if step_files:` /
`if report.get(...):` truthiness tests are nonemptiness tests. -/
def check_before_execution (timestamp : String)
    (page_files step_files : List PyFile) : PreCheckReport :=
  let r0 : PreCheckReport :=
    { timestamp := timestamp, duplication_check := none, locator_integrity := none
    , step_integrity := none, ready_to_execute := true, issues := [] }
  let r1 :=
    if page_files = [] then r0
    else
      let dup_locators := check_page_object_duplication page_files
      let ra := { r0 with duplication_check := some dup_locators }
      if dup_locators.duplicate_locators = [] then ra
      else
        { ra with
          ready_to_execute := false,
          issues := ra.issues ++
            ["Duplicate locators found: " ++
              toString dup_locators.duplicate_locators.length] }
  if step_files = [] then r1
  else
    let dup_steps := check_step_duplication step_files
    let rb := { r1 with step_integrity := some dup_steps }
    if dup_steps.duplicate_steps = [] then rb
    else
      { rb with issues := rb.issues ++
          ["Duplicate steps found: " ++ toString dup_steps.duplicate_steps.length] }

/-! ## Derived definitions used in the statements and proofs -/

/-- The step items `(file, pattern_type, pattern_text)` contributed by one
file: none when the read fails, otherwise the extracted captures tagged with
the path. -/
def stepItemsOf (f : PyFile) : List (String × String × String) :=
  match f.2 with
  | none => []
  | some content => (extract_steps content).map fun pt => (f.1, pt.1, pt.2)

/-- The locator items `(file, locator_name, locator_value)` contributed by
one file. -/
def locItemsOf (f : PyFile) : List (String × String × String) :=
  match f.2 with
  | none => []
  | some content => (extract_locators content).map fun nv => (f.1, nv.1, nv.2)

/-- All step items of a file collection, in scan order. -/
def allStepItems (files : List PyFile) : List (String × String × String) :=
  files.flatMap stepItemsOf

/-- All locator items of a file collection, in scan order. -/
def allLocItems (files : List PyFile) : List (String × String × String) :=
  files.flatMap locItemsOf

/-- The grouping key used by `check_step_duplication`:
`pattern_text.lower()` (no strip). -/
def stepKey (it : String × String × String) : String :=
  pyLower it.2.2

/-- The grouping key used by `check_page_object_duplication`:
`locator_value.strip().lower()`. -/
def locKey (it : String × String × String) : String :=
  pyLower (pyStrip it.2.2)

/-- The occurrence record built by the step scan. -/
def mkStepOcc (it : String × String × String) : StepOcc :=
  ⟨it.1, it.2.2, it.2.1⟩

/-- The occurrence record built by the locator scan. -/
def mkLocOcc (it : String × String × String) : LocOcc :=
  ⟨it.1, it.2.1, it.2.2⟩

/-- Generic form of the inner-loop body shared by both checks. -/
def gItem {ι α : Type} (key : ι → String) (mk : ι → α) (fl : ι → String)
    (st : ScanState α) (it : ι) : ScanState α :=
  (st.1 + 1, insertOcc st.2.1 (key it) (mk it), addFile st.2.2 (fl it))

/-- Total number of occurrences stored in an occurrence dict. -/
def sumLens {α : Type} (m : List (String × List α)) : Nat :=
  (m.map fun e => e.2.length).sum

example :
    (check_step_duplication
      [("A.java", some "@When(\"click\") @Then(\"Click\")")]).duplicate_steps =
      [⟨"click", 2, ["A.java", "A.java"]⟩] := by
  decide

example :
    (check_page_object_duplication
      [("P.java", some "public static final By A = By.id(\"x\") ;x"),
       ("Q.java", some "public static final By B = By.ID(\"x\");")]).total_locators
      = 2 := by decide

example :
    ((check_page_object_duplication
      [("P.java", some "public static final By A = By.id(\"x\") ;x"),
       ("Q.java", some "public static final By B = By.ID(\"x\");")]).duplicate_locators.map
        DupLoc.count) = [2] := by decide

/-! ## Helper lemmas about the scan state -/

theorem foldl_gItem_fst {ι α : Type} (key : ι → String) (mk : ι → α)
    (fl : ι → String) (items : List ι) (st : ScanState α) :
    (items.foldl (gItem key mk fl) st).1 = st.1 + items.length := by
  induction items generalizing st with
  | nil => simp
  | cons it rest ih =>
    simp only [List.foldl_cons, ih, gItem, List.length_cons]
    omega

theorem getOcc_nil {α : Type} (k : String) : getOcc ([] : List (String × List α)) k = [] := by
  simp [getOcc]

theorem getOcc_cons_self {α : Type} (k₁ : String) (os : List α)
    (rest : List (String × List α)) : getOcc ((k₁, os) :: rest) k₁ = os := by
  unfold getOcc
  rw [List.find?_cons_of_pos]
  simp

theorem getOcc_cons_of_ne {α : Type} (k₁ k' : String) (os : List α)
    (rest : List (String × List α)) (h : ¬k₁ = k') :
    getOcc ((k₁, os) :: rest) k' = getOcc rest k' := by
  unfold getOcc
  rw [List.find?_cons_of_neg]
  simp [h]

theorem insertOcc_nil {α : Type} (k : String) (o : α) :
    insertOcc [] k o = [(k, [o])] := rfl

theorem insertOcc_cons_self {α : Type} (k : String) (os : List α)
    (rest : List (String × List α)) (o : α) :
    insertOcc ((k, os) :: rest) k o = (k, os ++ [o]) :: rest := by
  simp [insertOcc]

theorem insertOcc_cons_of_ne {α : Type} (k₁ k : String) (os : List α)
    (rest : List (String × List α)) (o : α) (h : ¬k₁ = k) :
    insertOcc ((k₁, os) :: rest) k o = (k₁, os) :: insertOcc rest k o := by
  simp [insertOcc, h]

theorem getOcc_insertOcc {α : Type} (m : List (String × List α)) (k k' : String)
    (o : α) :
    getOcc (insertOcc m k o) k' =
      if k' = k then getOcc m k' ++ [o] else getOcc m k' := by
  induction m with
  | nil =>
    by_cases h : k' = k
    · subst h
      simp [insertOcc_nil, getOcc_cons_self, getOcc_nil]
    · rw [if_neg h, insertOcc_nil, getOcc_cons_of_ne _ _ _ _ (Ne.symm h)]
  | cons e rest ih =>
    obtain ⟨k₁, os⟩ := e
    by_cases h1 : k₁ = k
    · subst h1
      rw [insertOcc_cons_self]
      by_cases h2 : k' = k₁
      · subst h2
        rw [if_pos rfl, getOcc_cons_self, getOcc_cons_self]
      · rw [if_neg h2, getOcc_cons_of_ne _ _ _ _ (Ne.symm h2),
          getOcc_cons_of_ne _ _ _ _ (Ne.symm h2)]
    · rw [insertOcc_cons_of_ne _ _ _ _ _ h1]
      by_cases h2 : k' = k₁
      · subst h2
        rw [if_neg h1, getOcc_cons_self, getOcc_cons_self]
      · rw [getOcc_cons_of_ne _ _ _ _ (Ne.symm h2), ih,
          getOcc_cons_of_ne _ _ _ _ (Ne.symm h2)]

theorem foldl_gItem_getOcc {ι α : Type} (key : ι → String) (mk : ι → α)
    (fl : ι → String) (items : List ι) (st : ScanState α) (k : String) :
    getOcc (items.foldl (gItem key mk fl) st).2.1 k =
      getOcc st.2.1 k ++ (items.filter fun it => key it == k).map mk := by
  induction items generalizing st with
  | nil => simp
  | cons it rest ih =>
    simp only [List.foldl_cons, ih, gItem, List.filter_cons]
    by_cases h : key it = k
    · simp [getOcc_insertOcc, h]
    · have h' : ¬k = key it := Ne.symm h
      simp [getOcc_insertOcc, h, h']

theorem sumLens_insertOcc {α : Type} (m : List (String × List α)) (k : String)
    (o : α) : sumLens (insertOcc m k o) = sumLens m + 1 := by
  induction m with
  | nil => simp [insertOcc, sumLens]
  | cons e rest ih =>
    by_cases h : e.1 = k <;>
      simp [insertOcc, sumLens, h, List.sum_cons] at ih ⊢ <;> omega

theorem foldl_gItem_sumLens {ι α : Type} (key : ι → String) (mk : ι → α)
    (fl : ι → String) (items : List ι) (st : ScanState α) :
    sumLens (items.foldl (gItem key mk fl) st).2.1 =
      sumLens st.2.1 + items.length := by
  induction items generalizing st with
  | nil => simp
  | cons it rest ih =>
    simp only [List.foldl_cons, ih, gItem, sumLens_insertOcc, List.length_cons]
    omega

theorem mem_addFile (s : List String) (f x : String) :
    x ∈ addFile s f ↔ x ∈ s ∨ x = f := by
  unfold addFile
  by_cases h : f ∈ s
  · simp only [if_pos h]
    constructor
    · exact Or.inl
    · rintro (hx | hx)
      · exact hx
      · rw [hx]
        exact h
  · simp [if_neg h]

theorem foldl_gItem_aff {ι α : Type} (key : ι → String) (mk : ι → α)
    (fl : ι → String) (items : List ι) (st : ScanState α) (x : String) :
    x ∈ (items.foldl (gItem key mk fl) st).2.2 ↔
      x ∈ st.2.2 ∨ ∃ it ∈ items, fl it = x := by
  induction items generalizing st with
  | nil => simp
  | cons it rest ih =>
    simp only [List.foldl_cons, ih, gItem, mem_addFile, List.mem_cons]
    constructor
    · rintro (( h | h ) | ⟨it', hit', h⟩)
      · exact Or.inl h
      · exact Or.inr ⟨it, Or.inl rfl, h.symm⟩
      · exact Or.inr ⟨it', Or.inr hit', h⟩
    · rintro (h | ⟨it', (hit' | hit'), h⟩)
      · exact Or.inl (Or.inl h)
      · subst hit'
        exact Or.inl (Or.inr h.symm)
      · exact Or.inr ⟨it', hit', h⟩

theorem foldl_fileStep_flatMap {β ι σ : Type} (g : σ → ι → σ)
    (itemsOf : β → List ι) (fileStep : σ → β → σ)
    (hstep : ∀ s f, fileStep s f = (itemsOf f).foldl g s)
    (files : List β) (s : σ) :
    files.foldl fileStep s = (files.flatMap itemsOf).foldl g s := by
  induction files generalizing s with
  | nil => simp
  | cons f fs ih => simp [List.flatMap_cons, List.foldl_append, hstep, ih]

theorem stepItem_eq_gItem :
    stepItem = gItem stepKey mkStepOcc (fun it => it.1) := rfl

theorem locItem_eq_gItem :
    locItem = gItem locKey mkLocOcc (fun it => it.1) := rfl

theorem stepFile_eq (st : ScanState StepOcc) (f : PyFile) :
    stepFile st f = (stepItemsOf f).foldl stepItem st := by
  obtain ⟨p, c⟩ := f
  cases c <;> rfl

theorem locFile_eq (st : ScanState LocOcc) (f : PyFile) :
    locFile st f = (locItemsOf f).foldl locItem st := by
  obtain ⟨p, c⟩ := f
  cases c <;> rfl

theorem step_scan_eq (files : List PyFile) :
    files.foldl stepFile (0, [], []) =
      (allStepItems files).foldl (gItem stepKey mkStepOcc (fun it => it.1))
        (0, [], []) := by
  rw [← stepItem_eq_gItem, allStepItems,
    foldl_fileStep_flatMap stepItem stepItemsOf stepFile stepFile_eq]

theorem loc_scan_eq (files : List PyFile) :
    files.foldl locFile (0, [], []) =
      (allLocItems files).foldl (gItem locKey mkLocOcc (fun it => it.1))
        (0, [], []) := by
  rw [← locItem_eq_gItem, allLocItems,
    foldl_fileStep_flatMap locItem locItemsOf locFile locFile_eq]

theorem two_mul_filter_le_sumLens {α : Type} (m : List (String × List α)) :
    2 * (m.filter fun e => decide (1 < e.2.length)).length ≤ sumLens m := by
  induction m with
  | nil => simp [sumLens]
  | cons e rest ih =>
    have hsum : sumLens (e :: rest) = e.2.length + sumLens rest := by
      simp [sumLens]
    by_cases h : 1 < e.2.length
    · rw [List.filter_cons_of_pos (by simpa using h), hsum, List.length_cons]
      omega
    · rw [List.filter_cons_of_neg (by simpa using h), hsum]
      omega

theorem foldl_locFile_skip (files : List PyFile) (st : ScanState LocOcc) :
    files.foldl locFile st = (files.filter fun f => f.2.isSome).foldl locFile st := by
  induction files generalizing st with
  | nil => rfl
  | cons f fs ih =>
    obtain ⟨p, c⟩ := f
    cases c with
    | none => simpa [List.filter_cons, locFile] using ih st
    | some cc => simp [List.filter_cons, ih]

theorem foldl_stepFile_skip (files : List PyFile) (st : ScanState StepOcc) :
    files.foldl stepFile st = (files.filter fun f => f.2.isSome).foldl stepFile st := by
  induction files generalizing st with
  | nil => rfl
  | cons f fs ih =>
    obtain ⟨p, c⟩ := f
    cases c with
    | none => simpa [List.filter_cons, stepFile] using ih st
    | some cc => simp [List.filter_cons, ih]

/-! ## Claim theorems -/

/-- **C7.** A file whose read fails is skipped and scanning continues: each
duplication check returns exactly the report computed from the readable
files alone, and (being a total function) never propagates the read failure. -/
theorem duplication_check_skips_unreadable (files : List PyFile) :
    check_page_object_duplication files =
      check_page_object_duplication (files.filter fun f => f.2.isSome) ∧
    check_step_duplication files =
      check_step_duplication (files.filter fun f => f.2.isSome) := by
  constructor
  · simp only [check_page_object_duplication]
    rw [foldl_locFile_skip]
  · simp only [check_step_duplication]
    rw [foldl_stepFile_skip]

theorem exists_item_iff (extract : String → List (String × String))
    (itemsOf : PyFile → List (String × String × String))
    (hif : ∀ f : PyFile, itemsOf f =
      match f.2 with
      | none => []
      | some c => (extract c).map fun x => (f.1, x.1, x.2))
    (files : List PyFile) (p : String) :
    (∃ it ∈ files.flatMap itemsOf, it.1 = p) ↔
      ∃ c, (p, some c) ∈ files ∧ extract c ≠ [] := by
  constructor
  · rintro ⟨it, hit, hp⟩
    rw [List.mem_flatMap] at hit
    obtain ⟨f, hf, hitf⟩ := hit
    obtain ⟨q, oc⟩ := f
    rw [hif] at hitf
    cases oc with
    | none => simp at hitf
    | some c =>
      simp only [List.mem_map] at hitf
      obtain ⟨nv, hnv, hiteq⟩ := hitf
      have hq : q = p := by
        rw [← hp, ← hiteq]
      rw [hq] at hf
      exact ⟨c, hf, List.ne_nil_of_mem hnv⟩
  · rintro ⟨c, hmem, hne⟩
    obtain ⟨nv, hnv⟩ := List.exists_mem_of_ne_nil _ hne
    refine ⟨(p, nv.1, nv.2), ?_, rfl⟩
    rw [List.mem_flatMap]
    refine ⟨(p, some c), hmem, ?_⟩
    rw [hif]
    simp only [List.mem_map]
    exact ⟨nv, hnv, rfl⟩

/-- **C10.** The affected-files set of each duplication report contains
exactly the files from which at least one declaration was extracted,
whether or not that file contributes to any duplicate group. -/
theorem affected_files_exactly_extracting_files (files : List PyFile) (p : String) :
    (p ∈ (check_page_object_duplication files).pages_affected ↔
      ∃ c, (p, some c) ∈ files ∧ extract_locators c ≠ []) ∧
    (p ∈ (check_step_duplication files).files_affected ↔
      ∃ c, (p, some c) ∈ files ∧ extract_steps c ≠ []) := by
  constructor
  · have h1 : (check_page_object_duplication files).pages_affected =
        (files.foldl locFile (0, [], [])).2.2 := rfl
    rw [h1, loc_scan_eq, foldl_gItem_aff]
    simp only [List.not_mem_nil, false_or]
    exact exists_item_iff extract_locators locItemsOf (fun f => rfl) files p
  · have h1 : (check_step_duplication files).files_affected =
        (files.foldl stepFile (0, [], [])).2.2 := rfl
    rw [h1, step_scan_eq, foldl_gItem_aff]
    simp only [List.not_mem_nil, false_or]
    exact exists_item_iff extract_steps stepItemsOf (fun f => rfl) files p

theorem affected_files_witness :
    "P.java" ∈ (check_page_object_duplication
      [("P.java", some "public static final By A = By.id(\"x\");"),
       ("Q.java", some "no locators here")]).pages_affected :=
  (affected_files_exactly_extracting_files _ "P.java").1.mpr
    ⟨"public static final By A = By.id(\"x\");", by decide, by decide⟩

theorem pct_formula (T D : Nat) (h : 0 < T) :
    (if 0 < T then ((D : ℚ) / (T : ℚ)) * 100 else 0) = 100 * (D : ℚ) / (T : ℚ) := by
  rw [if_pos h]
  ring

theorem pct_zero (T D : Nat) (h : T = 0) :
    (if 0 < T then ((D : ℚ) / (T : ℚ)) * 100 else 0) = 0 := by
  simp [h]

theorem pct_le_half (T D : Nat) (h2 : 2 * D ≤ T) (hT : 0 < T) :
    (if 0 < T then ((D : ℚ) / (T : ℚ)) * 100 else 0) ≤ 50 := by
  rw [if_pos hT, div_mul_eq_mul_div, div_le_iff₀ (by exact_mod_cast hT)]
  have h2' : (2 * D : ℚ) ≤ (T : ℚ) := by exact_mod_cast h2
  push_cast at h2' ⊢
  linarith

/-- **C1.** In both duplication checks the reported percentage is exactly
`100 * |duplicate groups| / total` when the total is positive and `0` when
the total is `0`; the denominator counts individual extracted declarations
and the numerator counts groups with more than one member. -/
theorem duplication_percentage_formula (files : List PyFile) :
    (0 < (check_page_object_duplication files).total_locators →
      (check_page_object_duplication files).duplication_percentage =
        100 * ((check_page_object_duplication files).duplicate_locators.length : ℚ) /
          ((check_page_object_duplication files).total_locators : ℚ)) ∧
    ((check_page_object_duplication files).total_locators = 0 →
      (check_page_object_duplication files).duplication_percentage = 0) ∧
    (check_page_object_duplication files).total_locators = (allLocItems files).length ∧
    (∀ g ∈ (check_page_object_duplication files).duplicate_locators, 2 ≤ g.count) ∧
    (0 < (check_step_duplication files).total_steps →
      (check_step_duplication files).duplication_percentage =
        100 * ((check_step_duplication files).duplicate_steps.length : ℚ) /
          ((check_step_duplication files).total_steps : ℚ)) ∧
    ((check_step_duplication files).total_steps = 0 →
      (check_step_duplication files).duplication_percentage = 0) ∧
    (check_step_duplication files).total_steps = (allStepItems files).length ∧
    (∀ g ∈ (check_step_duplication files).duplicate_steps, 2 ≤ g.count) := by
  refine ⟨?_, ?_, ?_, ?_, ?_, ?_, ?_, ?_⟩
  · intro h
    exact pct_formula (check_page_object_duplication files).total_locators
      (check_page_object_duplication files).duplicate_locators.length h
  · intro h
    exact pct_zero (check_page_object_duplication files).total_locators
      (check_page_object_duplication files).duplicate_locators.length h
  · have h1 : (check_page_object_duplication files).total_locators =
        (files.foldl locFile (0, [], [])).1 := rfl
    rw [h1, loc_scan_eq, foldl_gItem_fst]
    simp
  · have h1 : (check_page_object_duplication files).duplicate_locators =
        ((files.foldl locFile (0, [], [])).2.1.filter fun e =>
            decide (1 < e.2.length)).map fun e =>
          (⟨e.1, e.2.length, e.2.map fun o => o.file ++ "::" ++ o.name⟩ : DupLoc) := rfl
    rw [h1]
    intro g hg
    rw [List.mem_map] at hg
    obtain ⟨e, he, rfl⟩ := hg
    have := (List.mem_filter.mp he).2
    have hlen : 1 < e.2.length := of_decide_eq_true this
    exact hlen
  · intro h
    exact pct_formula (check_step_duplication files).total_steps
      (check_step_duplication files).duplicate_steps.length h
  · intro h
    exact pct_zero (check_step_duplication files).total_steps
      (check_step_duplication files).duplicate_steps.length h
  · have h1 : (check_step_duplication files).total_steps =
        (files.foldl stepFile (0, [], [])).1 := rfl
    rw [h1, step_scan_eq, foldl_gItem_fst]
    simp
  · have h1 : (check_step_duplication files).duplicate_steps =
        ((files.foldl stepFile (0, [], [])).2.1.filter fun e =>
            decide (1 < e.2.length)).map fun e =>
          (⟨e.1, e.2.length, e.2.map fun o => o.file⟩ : DupStep) := rfl
    rw [h1]
    intro g hg
    rw [List.mem_map] at hg
    obtain ⟨e, he, rfl⟩ := hg
    have := (List.mem_filter.mp he).2
    have hlen : 1 < e.2.length := of_decide_eq_true this
    exact hlen

theorem duplication_percentage_formula_witness :
    (check_page_object_duplication
      [("P.java", some "public static final By A = By.id(\"x\") ;x"),
       ("Q.java", some "public static final By B = By.ID(\"x\");")]).duplication_percentage =
      100 * ((check_page_object_duplication
        [("P.java", some "public static final By A = By.id(\"x\") ;x"),
         ("Q.java", some "public static final By B = By.ID(\"x\");")]).duplicate_locators.length : ℚ) /
        ((check_page_object_duplication
          [("P.java", some "public static final By A = By.id(\"x\") ;x"),
           ("Q.java", some "public static final By B = By.ID(\"x\");")]).total_locators : ℚ) :=
  (duplication_percentage_formula _).1 (by decide)

theorem loc_sumLens_eq_total (files : List PyFile) :
    sumLens (files.foldl locFile (0, [], [])).2.1 =
      (files.foldl locFile (0, [], [])).1 := by
  rw [loc_scan_eq, foldl_gItem_sumLens, foldl_gItem_fst]
  simp [sumLens]

theorem step_sumLens_eq_total (files : List PyFile) :
    sumLens (files.foldl stepFile (0, [], [])).2.1 =
      (files.foldl stepFile (0, [], [])).1 := by
  rw [step_scan_eq, foldl_gItem_sumLens, foldl_gItem_fst]
  simp [sumLens]

/-- **C9.** Every reported duplicate group has at least two occurrences and
distinct groups hold disjoint occurrences, so the number of duplicate groups
is at most half the total count; hence the percentage never exceeds `50`. -/
theorem duplication_percentage_le_fifty (files : List PyFile) :
    2 * (check_page_object_duplication files).duplicate_locators.length ≤
      (check_page_object_duplication files).total_locators ∧
    (0 < (check_page_object_duplication files).total_locators →
      (check_page_object_duplication files).duplication_percentage ≤ 50) ∧
    2 * (check_step_duplication files).duplicate_steps.length ≤
      (check_step_duplication files).total_steps ∧
    (0 < (check_step_duplication files).total_steps →
      (check_step_duplication files).duplication_percentage ≤ 50) := by
  have hlocD : (check_page_object_duplication files).duplicate_locators.length =
      ((files.foldl locFile (0, [], [])).2.1.filter fun e =>
        decide (1 < e.2.length)).length := by
    have h1 : (check_page_object_duplication files).duplicate_locators =
        ((files.foldl locFile (0, [], [])).2.1.filter fun e =>
            decide (1 < e.2.length)).map fun e =>
          (⟨e.1, e.2.length, e.2.map fun o => o.file ++ "::" ++ o.name⟩ : DupLoc) := rfl
    rw [h1, List.length_map]
  have hstepD : (check_step_duplication files).duplicate_steps.length =
      ((files.foldl stepFile (0, [], [])).2.1.filter fun e =>
        decide (1 < e.2.length)).length := by
    have h1 : (check_step_duplication files).duplicate_steps =
        ((files.foldl stepFile (0, [], [])).2.1.filter fun e =>
            decide (1 < e.2.length)).map fun e =>
          (⟨e.1, e.2.length, e.2.map fun o => o.file⟩ : DupStep) := rfl
    rw [h1, List.length_map]
  have hloc2 : 2 * (check_page_object_duplication files).duplicate_locators.length ≤
      (check_page_object_duplication files).total_locators := by
    rw [hlocD]
    have h2 := two_mul_filter_le_sumLens (files.foldl locFile (0, [], [])).2.1
    rw [loc_sumLens_eq_total] at h2
    exact h2
  have hstep2 : 2 * (check_step_duplication files).duplicate_steps.length ≤
      (check_step_duplication files).total_steps := by
    rw [hstepD]
    have h2 := two_mul_filter_le_sumLens (files.foldl stepFile (0, [], [])).2.1
    rw [step_sumLens_eq_total] at h2
    exact h2
  refine ⟨hloc2, ?_, hstep2, ?_⟩
  · intro h
    exact pct_le_half (check_page_object_duplication files).total_locators
      (check_page_object_duplication files).duplicate_locators.length hloc2 h
  · intro h
    exact pct_le_half (check_step_duplication files).total_steps
      (check_step_duplication files).duplicate_steps.length hstep2 h

theorem duplication_percentage_le_fifty_witness :
    (check_page_object_duplication
      [("P.java", some "public static final By A = By.id(\"x\") ;x"),
       ("Q.java", some "public static final By B = By.ID(\"x\");")]).duplication_percentage
      ≤ 50 :=
  (duplication_percentage_le_fifty _).2.1 (by decide)

/-- **C4 counterexample.** Two step declarations whose quoted pattern texts
differ only in leading whitespace (they are equal after trimming and
lowercasing) do not fall into a common duplicate group: the step check
lowercases the pattern text but never trims it, so the report has two
extracted steps and no duplicate group at all. -/
theorem step_key_not_trimmed_counterexample :
    pyLower (pyStrip "x") = pyLower (pyStrip " x") ∧
    (check_step_duplication
      [("A.java", some "@When(\"x\") @When(\" x\")")]).total_steps = 2 ∧
    (check_step_duplication
      [("A.java", some "@When(\"x\") @When(\" x\")")]).duplicate_steps = [] := by
  refine ⟨by decide, by decide, by decide⟩

/-- **C4 (amended).** The locator check groups by the case-insensitive,
whitespace-trimmed selector expression (`strip().lower()`), so any two
extracted locator declarations agreeing on that key land in a common
duplicate group; the step check groups by the lowercased — but *not*
trimmed — pattern text, so two step declarations agreeing on the lowercased
text land in a common group, while step patterns differing in
leading/trailing whitespace need not. -/
theorem normalized_key_grouping (files : List PyFile)
    (l₁ l₂ l₃ : List (String × String × String)) (a b : String × String × String) :
    (allLocItems files = l₁ ++ a :: l₂ ++ b :: l₃ → locKey a = locKey b →
      ∃ g ∈ (check_page_object_duplication files).duplicate_locators,
        g.value = locKey a ∧ 2 ≤ g.count) ∧
    (allStepItems files = l₁ ++ a :: l₂ ++ b :: l₃ → stepKey a = stepKey b →
      ∃ g ∈ (check_step_duplication files).duplicate_steps,
        g.pattern = stepKey a ∧ 2 ≤ g.count) := by
  constructor
  · intro heq hkey
    have hget : getOcc (files.foldl locFile (0, [], [])).2.1 (locKey a) =
        ((allLocItems files).filter fun it => locKey it == locKey a).map mkLocOcc := by
      rw [loc_scan_eq, foldl_gItem_getOcc]
      simp [getOcc_nil]
    have hlen : 2 ≤ (getOcc (files.foldl locFile (0, [], [])).2.1 (locKey a)).length := by
      rw [hget, List.length_map, heq]
      have hb : (locKey b == locKey a) = true := by
        rw [beq_iff_eq]
        exact hkey.symm
      simp [List.filter_append, List.filter_cons, hb]
      omega
    set m := (files.foldl locFile (0, [], [])).2.1 with hm
    rcases hfind : m.find? fun e => e.1 == locKey a with _ | e
    · rw [getOcc, hfind] at hlen
      simp at hlen
    · have hemem : e ∈ m := List.mem_of_find?_eq_some hfind
      have hekey : e.1 = locKey a := by
        have := List.find?_some hfind
        rwa [beq_iff_eq] at this
      have helen : 2 ≤ e.2.length := by
        rw [getOcc, hfind] at hlen
        exact hlen
      have hfil : e ∈ m.filter fun x => decide (1 < x.2.length) :=
        List.mem_filter.mpr ⟨hemem, decide_eq_true (by omega)⟩
      have h1 : (check_page_object_duplication files).duplicate_locators =
          (m.filter fun x => decide (1 < x.2.length)).map fun x =>
            (⟨x.1, x.2.length, x.2.map fun o => o.file ++ "::" ++ o.name⟩ : DupLoc) := rfl
      refine ⟨⟨e.1, e.2.length, e.2.map fun o => o.file ++ "::" ++ o.name⟩, ?_, ?_, ?_⟩
      · rw [h1, List.mem_map]
        exact ⟨e, hfil, rfl⟩
      · exact hekey
      · exact helen
  · intro heq hkey
    have hget : getOcc (files.foldl stepFile (0, [], [])).2.1 (stepKey a) =
        ((allStepItems files).filter fun it => stepKey it == stepKey a).map mkStepOcc := by
      rw [step_scan_eq, foldl_gItem_getOcc]
      simp [getOcc_nil]
    have hlen : 2 ≤ (getOcc (files.foldl stepFile (0, [], [])).2.1 (stepKey a)).length := by
      rw [hget, List.length_map, heq]
      have hb : (stepKey b == stepKey a) = true := by
        rw [beq_iff_eq]
        exact hkey.symm
      simp [List.filter_append, List.filter_cons, hb]
      omega
    set m := (files.foldl stepFile (0, [], [])).2.1 with hm
    rcases hfind : m.find? fun e => e.1 == stepKey a with _ | e
    · rw [getOcc, hfind] at hlen
      simp at hlen
    · have hemem : e ∈ m := List.mem_of_find?_eq_some hfind
      have hekey : e.1 = stepKey a := by
        have := List.find?_some hfind
        rwa [beq_iff_eq] at this
      have helen : 2 ≤ e.2.length := by
        rw [getOcc, hfind] at hlen
        exact hlen
      have hfil : e ∈ m.filter fun x => decide (1 < x.2.length) :=
        List.mem_filter.mpr ⟨hemem, decide_eq_true (by omega)⟩
      have h1 : (check_step_duplication files).duplicate_steps =
          (m.filter fun x => decide (1 < x.2.length)).map fun x =>
            (⟨x.1, x.2.length, x.2.map fun o => o.file⟩ : DupStep) := rfl
      refine ⟨⟨e.1, e.2.length, e.2.map fun o => o.file⟩, ?_, ?_, ?_⟩
      · rw [h1, List.mem_map]
        exact ⟨e, hfil, rfl⟩
      · exact hekey
      · exact helen

theorem normalized_key_grouping_witness :
    (∃ g ∈ (check_page_object_duplication
        [("P.java", some "public static final By A = By.id(\"x\") ;x"),
         ("Q.java", some "public static final By B = By.ID(\"x\") ;")]).duplicate_locators,
      g.value = locKey ("P.java", "A", "id(\"x\") ") ∧ 2 ≤ g.count) ∧
    (∃ g ∈ (check_step_duplication
        [("A.java", some "@When(\"Click\") @Then(\"click\")")]).duplicate_steps,
      g.pattern = stepKey ("A.java", "When", "Click") ∧ 2 ≤ g.count) :=
  ⟨(normalized_key_grouping
      [("P.java", some "public static final By A = By.id(\"x\") ;x"),
       ("Q.java", some "public static final By B = By.ID(\"x\") ;")]
      [] [] [] ("P.java", "A", "id(\"x\") ") ("Q.java", "B", "ID(\"x\") ")).1
      (by decide) (by decide),
   (normalized_key_grouping
      [("A.java", some "@When(\"Click\") @Then(\"click\")")]
      [] [] [] ("A.java", "When", "Click") ("A.java", "Then", "click")).2
      (by decide) (by decide)⟩

theorem find?_eq_of_first {α : Type} (p : α → Bool) (l : List α) (k : Nat)
    (hk : k < l.length) (hpk : p (l.get ⟨k, hk⟩) = true)
    (hmin : ∀ m (hm : m < k), p (l.get ⟨m, Nat.lt_trans hm hk⟩) = false) :
    l.find? p = some (l.get ⟨k, hk⟩) := by
  induction l generalizing k with
  | nil => exact absurd hk (Nat.not_lt_zero k)
  | cons a rest ih =>
    cases k with
    | zero => exact List.find?_cons_of_pos _ hpk
    | succ k' =>
      have ha : p a = false := hmin 0 (Nat.succ_pos k')
      rw [List.find?_cons_of_neg _ (by rw [ha]; exact Bool.false_ne_true)]
      exact ih k' (Nat.lt_of_succ_lt_succ hk) hpk
        (fun m hm => hmin (m + 1) (Nat.succ_lt_succ hm))

/-- **C2.** When the log text contains the markers of two or more distinct
signatures, the returned `error_type`, `cause` and `fixes` all come from the
signature at the least matching index of the fixed table — i.e. from the one
listed first in the table, regardless of the markers' positions in the
text. -/
theorem first_signature_in_table_wins (msg : String) (k j : Nat)
    (hk : k < failure_patterns.length) (hj : j < failure_patterns.length)
    (hkj : k < j)
    (hck : containsSub msg (failure_patterns.get ⟨k, hk⟩).error_type = true)
    (hcj : containsSub msg (failure_patterns.get ⟨j, hj⟩).error_type = true)
    (hmin : ∀ m (hm : m < k),
      containsSub msg (failure_patterns.get ⟨m, Nat.lt_trans hm hk⟩).error_type = false) :
    (analyze_failure msg).error_type = some (failure_patterns.get ⟨k, hk⟩).error_type ∧
    (analyze_failure msg).cause = some (failure_patterns.get ⟨k, hk⟩).cause ∧
    (analyze_failure msg).fixes = (failure_patterns.get ⟨k, hk⟩).fixes := by
  have hfind : failure_patterns.find? (fun p => containsSub msg p.error_type) =
      some (failure_patterns.get ⟨k, hk⟩) :=
    find?_eq_of_first _ _ k hk hck hmin
  refine ⟨?_, ?_, ?_⟩ <;>
    simp [analyze_failure, hfind]

set_option maxRecDepth 8192 in
theorem first_signature_in_table_wins_witness :
    (analyze_failure "TimeoutException occurred while handling StaleElementReferenceException").error_type
      = some "StaleElementReferenceException" := by
  have hk : (1 : Nat) < failure_patterns.length := by decide
  have hj : (2 : Nat) < failure_patterns.length := by decide
  have hck : containsSub
      "TimeoutException occurred while handling StaleElementReferenceException"
      (failure_patterns.get ⟨1, hk⟩).error_type = true := by
    show containsSub
      "TimeoutException occurred while handling StaleElementReferenceException"
      "StaleElementReferenceException" = true
    decide
  have hcj : containsSub
      "TimeoutException occurred while handling StaleElementReferenceException"
      (failure_patterns.get ⟨2, hj⟩).error_type = true := by
    show containsSub
      "TimeoutException occurred while handling StaleElementReferenceException"
      "TimeoutException" = true
    decide
  have hmin : ∀ m (hm : m < 1), containsSub
      "TimeoutException occurred while handling StaleElementReferenceException"
      (failure_patterns.get ⟨m, Nat.lt_trans hm hk⟩).error_type = false := by
    intro m hm
    have hm0 : m = 0 := by omega
    subst hm0
    show containsSub
      "TimeoutException occurred while handling StaleElementReferenceException"
      "NoSuchElementException" = false
    decide
  exact (first_signature_in_table_wins
    "TimeoutException occurred while handling StaleElementReferenceException"
    1 2 hk hj (by decide) hck hcj hmin).1

/-- **C3.** Severity (and the severity-keyed `recommended_actions`) depends
only on the independent ordered marker check on the raw log — two logs
agreeing on the three severity markers get the same severity whatever
signature matched — and a log carrying both the stale-element and the
timeout marker gets the stale-element `error_type` with severity `HIGH`. -/
theorem severity_independent_of_error_type :
    (∀ m₁ m₂ : String,
      containsSub m₁ "NoSuchElementException" = containsSub m₂ "NoSuchElementException" →
      containsSub m₁ "TimeoutException" = containsSub m₂ "TimeoutException" →
      containsSub m₁ "AssertionError" = containsSub m₂ "AssertionError" →
      (analyze_failure m₁).severity = (analyze_failure m₂).severity ∧
      (analyze_failure m₁).recommended_actions = (analyze_failure m₂).recommended_actions) ∧
    (analyze_failure "StaleElementReferenceException then TimeoutException").error_type
      = some "StaleElementReferenceException" ∧
    (analyze_failure "StaleElementReferenceException then TimeoutException").severity
      = "HIGH" := by
  refine ⟨?_, by decide, by decide⟩
  intro m₁ m₂ h1 h2 h3
  constructor <;>
    simp only [analyze_failure, h1, h2, h3]

theorem severity_independent_of_error_type_witness :
    (analyze_failure "AssertionError: expected true").severity =
      (analyze_failure "values differ: AssertionError").severity :=
  ((severity_independent_of_error_type.1
    "AssertionError: expected true" "values differ: AssertionError"
    (by decide) (by decide) (by decide)).1)

/-- **C6.** A log in which no signature marker occurs yields the total (never
raising) result with `error_type` and `cause` unset, empty `fixes`, severity
`LOW` and empty `recommended_actions`. -/
theorem no_marker_yields_unclassified (msg : String)
    (h : ∀ p ∈ failure_patterns, containsSub msg p.error_type = false) :
    analyze_failure msg = ⟨none, none, [], "LOW", []⟩ := by
  have hfind : failure_patterns.find? (fun p => containsSub msg p.error_type) = none :=
    List.find?_eq_none.mpr fun x hx => by
      rw [h x hx]
      exact Bool.false_ne_true
  have h0 : containsSub msg "NoSuchElementException" = false :=
    h (failure_patterns.get ⟨0, by decide⟩) (List.get_mem _ _ _)
  have h2 : containsSub msg "TimeoutException" = false :=
    h (failure_patterns.get ⟨2, by decide⟩) (List.get_mem _ _ _)
  have h3 : containsSub msg "AssertionError" = false :=
    h (failure_patterns.get ⟨3, by decide⟩) (List.get_mem _ _ _)
  simp [analyze_failure, hfind, h0, h2, h3]

theorem no_marker_yields_unclassified_witness :
    analyze_failure "some random unrelated text" = ⟨none, none, [], "LOW", []⟩ :=
  no_marker_yields_unclassified "some random unrelated text" (by decide)

/-- **C8.** `analyze_failure` is deterministic: it is a pure function of the
input string (and the fixed tables), so equal inputs give results equal in
every field. -/
theorem analyze_failure_deterministic (s t : String) (h : s = t) :
    analyze_failure s = analyze_failure t := by
  rw [h]

theorem analyze_failure_deterministic_witness :
    analyze_failure "TimeoutException" = analyze_failure "TimeoutException" :=
  analyze_failure_deterministic "TimeoutException" "TimeoutException" rfl

/-- **C5.** `check_before_execution` clears `ready_to_execute` exactly when
the locator duplication check runs (the page-file list is nonempty) and
finds at least one duplicate locator group; duplicate step groups only
append an issue — the readiness flag does not depend on the step files at
all — and with no locator duplicates the flag stays `true`. -/
theorem ready_to_execute_policy (ts : String) (pf sf : List PyFile) :
    ((check_before_execution ts pf sf).ready_to_execute = false ↔
      pf ≠ [] ∧ (check_page_object_duplication pf).duplicate_locators ≠ []) ∧
    (∀ sf' : List PyFile, (check_before_execution ts pf sf').ready_to_execute =
      (check_before_execution ts pf sf).ready_to_execute) ∧
    (sf ≠ [] → (check_step_duplication sf).duplicate_steps ≠ [] →
      ("Duplicate steps found: " ++
        toString (check_step_duplication sf).duplicate_steps.length) ∈
          (check_before_execution ts pf sf).issues) := by
  have hready : ∀ sf₀ : List PyFile, (check_before_execution ts pf sf₀).ready_to_execute =
      if pf = [] then true
      else if (check_page_object_duplication pf).duplicate_locators = [] then true
      else false := by
    intro sf₀
    by_cases hpf : pf = [] <;>
      by_cases hd : (check_page_object_duplication pf).duplicate_locators = [] <;>
        by_cases hsf : sf₀ = [] <;>
          by_cases hs : (check_step_duplication sf₀).duplicate_steps = [] <;>
            simp [check_before_execution, hpf, hd, hsf, hs]
  refine ⟨?_, ?_, ?_⟩
  · rw [hready sf]
    by_cases hpf : pf = [] <;>
      by_cases hd : (check_page_object_duplication pf).duplicate_locators = [] <;>
        simp [hpf, hd]
  · intro sf'
    rw [hready sf', hready sf]
  · intro hsf hs
    by_cases hpf : pf = [] <;>
      by_cases hd : (check_page_object_duplication pf).duplicate_locators = [] <;>
        simp [check_before_execution, hpf, hd, hsf, hs]

theorem ready_to_execute_policy_witness :
    (check_before_execution "2026-01-01 00:00:00"
      [("P.java", some "public static final By A = By.id(\"x\") ;x"),
       ("Q.java", some "public static final By B = By.ID(\"x\");")]
      []).ready_to_execute = false :=
  (ready_to_execute_policy "2026-01-01 00:00:00"
    [("P.java", some "public static final By A = By.id(\"x\") ;x"),
     ("Q.java", some "public static final By B = By.ID(\"x\");")]
    []).1.mpr ⟨by decide, by decide⟩
